import Mathlib

/-!
Verification of the rfq_parser_app instrument model against its specification.

The C++ sources under `src/cpp` are shallowly embedded below:
* `double` is modelled as `ℚ` (exact arithmetic);
* C++ exceptions are modelled by `Except String` / `Option String` results;
* the C library functions `std::exp`, `std::log`, `std::sqrt`, `std::erfc`
  (external to the repository) are abstracted as a bundle `RealFuns` of
  rational-valued functions;
* `std::string` ordering (lexicographic byte comparison) is modelled by a
  structural lexicographic comparison on the character list.
-/

/-- Lexicographic strict comparison on character lists, by code point;
models `std::char_traits<char>::compare` (byte order agrees with code-point
order for UTF-8 text). -/
def strLtL : List Char → List Char → Bool
  | [], [] => false
  | [], _ :: _ => true
  | _ :: _, [] => false
  | a :: as, b :: bs =>
    if a.toNat < b.toNat then true
    else if b.toNat < a.toNat then false
    else strLtL as bs

/-- `a < b` on `std::string`. -/
def strLt (a b : String) : Bool := strLtL a.data b.data

/-- `a <= b` on `std::string`. -/
def strLe (a b : String) : Bool := !(strLt b a)

/-- `::toupper` restricted to ASCII, as applied by `std::transform` in the
sources (default C locale). -/
def cToUpper (c : Char) : Char :=
  if 'a' ≤ c ∧ c ≤ 'z' then Char.ofNat (c.toNat - 32) else c

/-- One insertion step of an ascending sort. -/
def insertSorted (d : String) : List String → List String
  | [] => [d]
  | x :: xs => if strLe d x then d :: x :: xs else x :: insertSorted d xs

/-- Ascending sort of a string list; models the observable behaviour of
`std::sort(begin, end)` on `std::vector<std::string>`. -/
def stringSort : List String → List String
  | [] => []
  | x :: xs => insertSorted x (stringSort xs)

/-- `DayCountConvention` from `swap_leg.hpp`. -/
inductive DayCountConvention
  | ACT_360
  | ACT_365
  | THIRTY_360
  | ACT_ACT
deriving DecidableEq

/-- `PaymentFrequency` from `swap_leg.hpp`. -/
inductive PaymentFrequency
  | ANNUAL
  | SEMI_ANNUAL
  | QUARTERLY
  | MONTHLY
deriving DecidableEq

/-- `FloatingIndex` from `swap_leg.hpp`. -/
inductive FloatingIndex
  | SOFR
  | LIBOR_USD
  | EURIBOR
  | SONIA
  | TONAR
  | ESTR
deriving DecidableEq

/-- `LegType` from `swap_leg.hpp`. -/
inductive LegType
  | FIXED
  | FLOATING
deriving DecidableEq

/-- `SwapLeg::Rate = std::variant<double, FloatingIndex>`. -/
inductive Rate
  | fixed (r : ℚ)
  | floating (idx : FloatingIndex)
deriving DecidableEq

/-- Whether the variant holds the `double` alternative
(`std::holds_alternative<double>`). -/
def rateHoldsFixed : Rate → Bool
  | .fixed _ => true
  | .floating _ => false

/-- Whether the variant holds the `FloatingIndex` alternative
(`std::holds_alternative<FloatingIndex>`). -/
def rateHoldsFloating : Rate → Bool
  | .floating _ => true
  | .fixed _ => false

/-- `SwapLeg` from `swap_leg.hpp`. -/
structure SwapLeg where
  type : LegType
  currency : String
  notional : ℚ
  rate : Rate
  dayCount : DayCountConvention
  frequency : PaymentFrequency
  spread : Option ℚ
deriving DecidableEq

/-- `SwapLeg::isFixed`. -/
def SwapLeg.isFixed (l : SwapLeg) : Bool := rateHoldsFixed l.rate

/-- `SwapLeg::isFloating`. -/
def SwapLeg.isFloating (l : SwapLeg) : Bool := rateHoldsFloating l.rate

/-- `SwapLeg::fixedRate` (throws when the leg is floating). -/
def SwapLeg.fixedRate (l : SwapLeg) : Except String ℚ :=
  match l.rate with
  | .fixed r => .ok r
  | .floating _ => .error "Leg is floating, not fixed"

/-- `SwapLeg::floatingIndex` (throws when the leg is fixed). -/
def SwapLeg.floatingIdx (l : SwapLeg) : Except String FloatingIndex :=
  match l.rate with
  | .floating i => .ok i
  | .fixed _ => .error "Leg is fixed, not floating"

/-- `SwapLegBuilder` from `swap_leg.hpp`, with its member initializers:
note that `rate_` is default-initialized to the `double` alternative `0.0`. -/
structure SwapLegBuilder where
  type : LegType
  currency : String
  notional : ℚ
  rate : Rate
  dayCount : DayCountConvention
  frequency : PaymentFrequency
  spread : Option ℚ
deriving DecidableEq

/-- A fresh `SwapLegBuilder{}` with the in-class member initializers. -/
def SwapLegBuilder.new : SwapLegBuilder :=
  ⟨.FIXED, "", 0, .fixed 0, .ACT_360, .SEMI_ANNUAL, none⟩

/-- `SwapLegBuilder::withCurrency`. -/
def SwapLegBuilder.withCurrency (b : SwapLegBuilder) (c : String) : SwapLegBuilder :=
  { b with currency := c }

/-- `SwapLegBuilder::withNotional`; throws immediately on a non-positive
argument (fail-fast). -/
def SwapLegBuilder.withNotional (b : SwapLegBuilder) (n : ℚ) :
    Except String SwapLegBuilder :=
  if n ≤ 0 then .error "Notional must be positive"
  else .ok { b with notional := n }

/-- `SwapLegBuilder::withFixedRate`. -/
def SwapLegBuilder.withFixedRate (b : SwapLegBuilder) (r : ℚ) : SwapLegBuilder :=
  { b with rate := .fixed r, type := .FIXED }

/-- `SwapLegBuilder::withFloatingIndex`. -/
def SwapLegBuilder.withFloatingIndex (b : SwapLegBuilder) (i : FloatingIndex) :
    SwapLegBuilder :=
  { b with rate := .floating i, type := .FLOATING }

/-- `SwapLegBuilder::withDayCount`. -/
def SwapLegBuilder.withDayCount (b : SwapLegBuilder) (dc : DayCountConvention) :
    SwapLegBuilder :=
  { b with dayCount := dc }

/-- `SwapLegBuilder::withFrequency`. -/
def SwapLegBuilder.withFrequency (b : SwapLegBuilder) (f : PaymentFrequency) :
    SwapLegBuilder :=
  { b with frequency := f }

/-- `SwapLegBuilder::withSpread`. -/
def SwapLegBuilder.withSpread (b : SwapLegBuilder) (s : ℚ) : SwapLegBuilder :=
  { b with spread := some s }

/-- `SwapLegBuilder::validate`: the first violated check's exception message,
or `none` when all checks pass.  The third check mirrors the source exactly:
it asks whether the `rate_` variant holds neither alternative, which is
impossible for a two-alternative variant that is never valueless. -/
def SwapLegBuilder.buildValidate (b : SwapLegBuilder) : Option String :=
  if b.currency = "" then some "Currency is required"
  else if b.notional ≤ 0 then some "Notional must be positive"
  else if !rateHoldsFixed b.rate && !rateHoldsFloating b.rate then
    some "Rate must be set (fixed or floating)"
  else none

/-- `SwapLegBuilder::build`. -/
def SwapLegBuilder.build (b : SwapLegBuilder) : Except String SwapLeg :=
  match b.buildValidate with
  | some e => .error e
  | none => .ok ⟨b.type, b.currency, b.notional, b.rate, b.dayCount, b.frequency, b.spread⟩

/-- `SwapType` from `interest_rate_swap.hpp`. -/
inductive SwapType
  | VANILLA
  | BASIS
  | CROSS_CURRENCY
  | OVERNIGHT
deriving DecidableEq

/-- `InterestRateSwap` from `interest_rate_swap.hpp`. -/
structure InterestRateSwap where
  type : SwapType
  payLeg : SwapLeg
  receiveLeg : SwapLeg
  tenor : String
  effectiveDate : String
  fxRate : Option ℚ
deriving DecidableEq

/-- `swap_utils::isValidVanillaSwap`. -/
def swap_utils.isValidVanillaSwap (pay receive : SwapLeg) : Bool :=
  (pay.isFixed && receive.isFloating || pay.isFloating && receive.isFixed) &&
  (pay.currency == receive.currency)

/-- `swap_utils::isValidBasisSwap`.  The final comparison reads the
`floatingIndex()` getters, which cannot throw on this path because both legs
were just checked to be floating. -/
def swap_utils.isValidBasisSwap (pay receive : SwapLeg) : Bool :=
  if !pay.isFloating || !receive.isFloating then false
  else if pay.currency != receive.currency then false
  else
    match pay.floatingIdx, receive.floatingIdx with
    | .ok i, .ok j => i != j
    | _, _ => false

/-- `swap_utils::isValidCrossCurrencySwap`. -/
def swap_utils.isValidCrossCurrencySwap (pay receive : SwapLeg) : Bool :=
  pay.currency != receive.currency

/-- `InterestRateSwap::createVanillaSwap`. -/
def InterestRateSwap.createVanillaSwap (pay receive : SwapLeg)
    (tenor effectiveDate : String) : Except String InterestRateSwap :=
  if !swap_utils.isValidVanillaSwap pay receive then
    .error "Invalid vanilla swap structure"
  else
    .ok ⟨.VANILLA, pay, receive, tenor, effectiveDate, none⟩

/-- `InterestRateSwap::createBasisSwap`. -/
def InterestRateSwap.createBasisSwap (pay receive : SwapLeg)
    (tenor effectiveDate : String) : Except String InterestRateSwap :=
  if !swap_utils.isValidBasisSwap pay receive then
    .error "Invalid basis swap structure"
  else
    .ok ⟨.BASIS, pay, receive, tenor, effectiveDate, none⟩

/-- `InterestRateSwap::createCrossCurrencySwap`. -/
def InterestRateSwap.createCrossCurrencySwap (pay receive : SwapLeg)
    (tenor effectiveDate : String) (fxRate : ℚ) : Except String InterestRateSwap :=
  if !swap_utils.isValidCrossCurrencySwap pay receive then
    .error "Invalid cross-currency swap structure"
  else if fxRate ≤ 0 then
    .error "FX rate must be positive"
  else
    .ok ⟨.CROSS_CURRENCY, pay, receive, tenor, effectiveDate, some fxRate⟩

/-- `InterestRateSwap::notional`. -/
def InterestRateSwap.notional (s : InterestRateSwap) : ℚ :=
  match s.type, s.fxRate with
  | .CROSS_CURRENCY, some f => (s.payLeg.notional + s.receiveLeg.notional * f) / 2
  | _, _ => s.payLeg.notional

/-- `ExerciseStyle` from `swaption.hpp`. -/
inductive ExerciseStyle
  | EUROPEAN
  | AMERICAN
  | BERMUDAN
deriving DecidableEq

/-- `SwaptionType` from `swaption.hpp`. -/
inductive SwaptionType
  | PAYER
  | RECEIVER
deriving DecidableEq

/-- `Swaption` from `swaption.hpp`.  The shared pointer to the underlying
swap is modelled by value; the null-pointer check in the constructor has no
counterpart because the model has no null. -/
structure Swaption where
  type : SwaptionType
  style : ExerciseStyle
  underlying : InterestRateSwap
  expiryDate : String
  strikeRate : ℚ
  premium : ℚ
  exerciseDates : List String
deriving DecidableEq

/-- The `Swaption` constructor: starts with an empty exercise-date vector and,
for European style only, pushes the expiry date. -/
def Swaption.init (t : SwaptionType) (style : ExerciseStyle)
    (u : InterestRateSwap) (expiryDate : String) (strikeRate premium : ℚ) :
    Swaption :=
  ⟨t, style, u, expiryDate, strikeRate, premium,
    if style = .EUROPEAN then [expiryDate] else []⟩

/-- `Swaption::createEuropean`. -/
def Swaption.createEuropean (t : SwaptionType) (u : InterestRateSwap)
    (expiryDate : String) (strikeRate premium : ℚ) : Swaption :=
  Swaption.init t .EUROPEAN u expiryDate strikeRate premium

/-- `Swaption::createAmerican`. -/
def Swaption.createAmerican (t : SwaptionType) (u : InterestRateSwap)
    (expiryDate : String) (strikeRate premium : ℚ) : Swaption :=
  Swaption.init t .AMERICAN u expiryDate strikeRate premium

/-- `Swaption::createBermudan`: constructs, overwrites the exercise-date
vector with the argument, then rejects an empty vector. -/
def Swaption.createBermudan (t : SwaptionType) (u : InterestRateSwap)
    (expiryDate : String) (strikeRate : ℚ) (exerciseDates : List String)
    (premium : ℚ) : Except String Swaption :=
  let s := { Swaption.init t .BERMUDAN u expiryDate strikeRate premium with
              exerciseDates := exerciseDates }
  if s.exerciseDates = [] then
    .error "Bermudan swaption requires at least one exercise date"
  else
    .ok s

/-- `Swaption::isPayer`. -/
def Swaption.isPayer (s : Swaption) : Bool := s.type = .PAYER

/-- `Swaption::canExerciseOn`. -/
def Swaption.canExerciseOn (s : Swaption) (date : String) : Bool :=
  match s.style with
  | .EUROPEAN => date == s.expiryDate
  | .AMERICAN => strLe date s.expiryDate
  | .BERMUDAN => s.exerciseDates.contains date

/-- `Swaption::intrinsicValue`. -/
def Swaption.intrinsicValue (s : Swaption) (currentRate : ℚ) : ℚ :=
  let rateDiff := currentRate - s.strikeRate
  match s.type with
  | .PAYER => max 0 rateDiff
  | .RECEIVER => max 0 (-rateDiff)

/-- `Swaption::addExerciseDate`: throws on non-Bermudan style; otherwise
inserts the date if absent and re-sorts the vector. -/
def Swaption.addExerciseDate (s : Swaption) (date : String) :
    Except String Swaption :=
  if s.style ≠ .BERMUDAN then
    .error "Can only add exercise dates to Bermudan swaptions"
  else if s.exerciseDates.contains date then .ok s
  else .ok { s with exerciseDates := stringSort (s.exerciseDates ++ [date]) }

/-- The swaptions reachable through the public interface: one of the three
factories, followed by any sequence of successful `addExerciseDate` calls
(a failed call throws and leaves the object unchanged). -/
inductive Reachable : Swaption → Prop
  | european (t : SwaptionType) (u : InterestRateSwap) (e : String) (k p : ℚ) :
      Reachable (Swaption.createEuropean t u e k p)
  | american (t : SwaptionType) (u : InterestRateSwap) (e : String) (k p : ℚ) :
      Reachable (Swaption.createAmerican t u e k p)
  | bermudan (t : SwaptionType) (u : InterestRateSwap) (e : String) (k : ℚ)
      (ds : List String) (p : ℚ) (s : Swaption)
      (h : Swaption.createBermudan t u e k ds p = .ok s) : Reachable s
  | add (s : Swaption) (d : String) (s2 : Swaption) (hs : Reachable s)
      (h : s.addExerciseDate d = .ok s2) : Reachable s2

/-- `ValidationSeverity` from `swap_validator.hpp`. -/
inductive ValidationSeverity
  | ERROR
  | WARNING
  | INFO
deriving DecidableEq

/-- `ValidationResult` from `swap_validator.hpp`. -/
structure ValidationResult where
  severity : ValidationSeverity
  field : String
  message : String
  suggestion : Option String
deriving DecidableEq

/-- Validator configuration: `strict_mode_`, `min_notional_`,
`max_notional_` of `SwapValidator`. -/
structure ValidatorConfig where
  strictMode : Bool
  minNotional : ℚ
  maxNotional : ℚ

/-- `SwapValidator::getValue`: the raw field mapping (modelled as a partial
map from field name to string value) is consulted, and an empty string
counts as absent. -/
def SwapValidator.getValue (data : String → Option String) (key : String) :
    Option String :=
  match data key with
  | some v => if v = "" then none else some v
  | none => none

/-- The first lines of `SwapValidator::validateNotional`: read `notional`,
falling back to `quantity`. -/
def SwapValidator.notionalText (data : String → Option String) : Option String :=
  match SwapValidator.getValue data "notional" with
  | some v => some v
  | none => SwapValidator.getValue data "quantity"

/-- `SwapValidator::validateNotional`.  `stod` abstracts `std::stod`
(`none` models the `std::invalid_argument` / `std::out_of_range` throw that
the surrounding `try` converts into the unparseable-value error) and `toStr`
abstracts `std::to_string` in the suggestion texts. -/
def SwapValidator.validateNotional (stod : String → Option ℚ)
    (toStr : ℚ → String) (cfg : ValidatorConfig)
    (data : String → Option String) : Option ValidationResult :=
  match SwapValidator.notionalText data with
  | none =>
    if cfg.strictMode then
      some ⟨.ERROR, "notional", "Notional amount is required", none⟩
    else none
  | some s =>
    match stod s with
    | none =>
      some ⟨.ERROR, "notional", "Invalid notional value: " ++ s,
            some "Must be a valid number"⟩
    | some v =>
      if v ≤ 0 then
        some ⟨.ERROR, "notional", "Notional must be positive", none⟩
      else if v < cfg.minNotional then
        some ⟨.WARNING, "notional", "Notional below minimum: " ++ s,
              some ("Minimum is " ++ toStr cfg.minNotional)⟩
      else if cfg.maxNotional < v then
        some ⟨.WARNING, "notional", "Notional exceeds maximum: " ++ s,
              some ("Maximum is " ++ toStr cfg.maxNotional)⟩
      else none

/-- `digitsVal` accumulates the value of a digit run exactly as repeated
`*10 + digit` does in `std::stoi`. -/
def digitsVal (ds : List Char) : Nat :=
  ds.foldl (fun n c => n * 10 + (c.toNat - 48)) 0

/-- Reduction to the 32-bit two's-complement `int` range, for the points
where the source performs `int` arithmetic that can overflow. -/
def int32Wrap (n : ℤ) : ℤ :=
  (n + 2147483648) % 4294967296 - 2147483648

/-- `swap_utils::tenorToMonths`.  `std::stoi` on the leading digit run throws
`std::out_of_range` when the value exceeds `INT_MAX` (2147483647 on the
supported 32-bit-int platforms); that uncaught throw is the `.error` case.
The divisions act on non-negative values at most `INT_MAX`, where C++ and
Lean integer division agree and no overflow is possible; the `'Y'` case's
`num * 12` is `int` multiplication, which overflows for
`num > 178956970` — modelled as the two's-complement wrap the program
exhibits (e.g. `"1073741824Y"` wraps to 0 months). -/
def swap_utils.tenorToMonths (tenor : String) : Except String ℤ :=
  if tenor = "" then .ok 0
  else
    let upper := tenor.data.map cToUpper
    let ds := upper.takeWhile Char.isDigit
    if ds.length = 0 then .ok 0
    else
      let num : Nat := digitsVal ds
      if 2147483647 < num then .error "stoi out of range"
      else
        let unit : Char :=
          match upper.drop ds.length with
          | [] => 'M'
          | c :: _ => c
        .ok (match unit with
          | 'D' => (num : ℤ) / 30
          | 'W' => (num : ℤ) / 4
          | 'M' => (num : ℤ)
          | 'Y' => int32Wrap ((num : ℤ) * 12)
          | _ => (num : ℤ))

/-- The bundle of C-library real functions used by the pricer (`std::exp`,
`std::log`, `std::sqrt`, `std::erfc`); they are external to the repository
and enter the model as parameters. -/
structure RealFuns where
  exp : ℚ → ℚ
  log : ℚ → ℚ
  sqrt : ℚ → ℚ
  erfc : ℚ → ℚ

/-- The anonymous-namespace `normalCDF` helper in `swaption.cpp`. -/
def normalCDF (E : RealFuns) (x : ℚ) : ℚ :=
  1/2 * E.erfc (-(x / E.sqrt 2))

/-- The `switch` over the fixed leg's `PaymentFrequency` in
`SwaptionPricer::calculateAnnuity` (the variable is initialized to `0`, but
every enumerator is covered, so `0` survives only for out-of-range enum
values that the model cannot represent). -/
def paymentsPerYear : PaymentFrequency → ℤ
  | .ANNUAL => 1
  | .SEMI_ANNUAL => 2
  | .QUARTERLY => 4
  | .MONTHLY => 12

/-- The fixed-leg selection in `SwaptionPricer::calculateAnnuity`. -/
def pricerFixedLeg (swap : InterestRateSwap) : SwapLeg :=
  if swap.payLeg.isFixed then swap.payLeg else swap.receiveLeg

/-- `SwaptionPricer::calculateAnnuity`.  `static_cast<int>` truncates the
non-negative payment count toward zero, which is `Int.floor` followed by
`Int.toNat` here; the loop `for i in 1..num_payments` is the sum over
`Finset.Icc 1 numPayments`. -/
def SwaptionPricer.calculateAnnuity (E : RealFuns) (swap : InterestRateSwap)
    (discountRate : ℚ) : Except String ℚ :=
  match swap_utils.tenorToMonths swap.tenor with
  | .error e => .error e
  | .ok tenorMonths =>
    if tenorMonths = 0 then .ok 1
    else
      let tenorYears : ℚ := (tenorMonths : ℚ) / 12
      let ppy : ℤ := paymentsPerYear (pricerFixedLeg swap).frequency
      if ppy = 0 then .ok 1
      else
        let numPayments : Nat := (⌊tenorYears * (ppy : ℚ)⌋).toNat
        let period : ℚ := 1 / (ppy : ℚ)
        .ok (∑ i ∈ Finset.Icc 1 numPayments,
              E.exp (-(discountRate * ((i : ℚ) * period))) * period)

/-- The Black-76 payer/receiver term of `SwaptionPricer::blackPrice`
(everything except the `notional * annuity` scaling). -/
def SwaptionPricer.blackTerm (E : RealFuns) (s : Swaption)
    (forwardRate volatility timeToExpiry : ℚ) : ℚ :=
  let strike := s.strikeRate
  let d1 := (E.log (forwardRate / strike) +
              1/2 * volatility * volatility * timeToExpiry) /
            (volatility * E.sqrt timeToExpiry)
  let d2 := d1 - volatility * E.sqrt timeToExpiry
  if s.isPayer then forwardRate * normalCDF E d1 - strike * normalCDF E d2
  else strike * normalCDF E (-d2) - forwardRate * normalCDF E (-d1)

/-- `SwaptionPricer::blackPrice`. -/
def SwaptionPricer.blackPrice (E : RealFuns) (s : Swaption)
    (forwardRate volatility timeToExpiry : ℚ) : Except String ℚ :=
  match SwaptionPricer.calculateAnnuity E s.underlying forwardRate with
  | .error e => .error e
  | .ok annuity =>
    .ok (s.underlying.notional * annuity *
          SwaptionPricer.blackTerm E s forwardRate volatility timeToExpiry)

/-- The annuity as the specification words it: the sum over
`i = 1 .. floor(tenorYears × paymentsPerYear)` of
`exp(−rate · i / paymentsPerYear) · (1 / paymentsPerYear)`, with the payment
count derived from the fixed leg's frequency and a tenor of `m` months. -/
def specAnnuitySum (E : RealFuns) (swap : InterestRateSwap) (rate : ℚ)
    (m : ℤ) : ℚ :=
  ∑ i ∈ Finset.Icc 1
      ((⌊(m : ℚ) / 12 * ((paymentsPerYear (pricerFixedLeg swap).frequency : ℤ) : ℚ)⌋).toNat),
    E.exp (-(rate * ((i : ℚ) *
      (1 / ((paymentsPerYear (pricerFixedLeg swap).frequency : ℤ) : ℚ))))) *
    (1 / ((paymentsPerYear (pricerFixedLeg swap).frequency : ℤ) : ℚ))

/-- A USD fixed leg (the §8 scenario leg A). -/
def legFix : SwapLeg :=
  ⟨.FIXED, "USD", 10000000, .fixed (21/400), .ACT_360, .SEMI_ANNUAL, none⟩

/-- A USD floating leg (the §8 scenario leg B). -/
def legFlt : SwapLeg :=
  ⟨.FLOATING, "USD", 10000000, .floating .SOFR, .ACT_360, .QUARTERLY, none⟩

/-- A EUR fixed leg. -/
def legFixEUR : SwapLeg :=
  ⟨.FIXED, "EUR", 9000000, .fixed (3/100), .ACT_365, .SEMI_ANNUAL, none⟩

/-- The vanilla swap `createVanillaSwap(legFix, legFlt, "5Y", "2024-01-15")`
produces. -/
def swapUSD : InterestRateSwap :=
  ⟨.VANILLA, legFix, legFlt, "5Y", "2024-01-15", none⟩

/-- The cross-currency swap
`createCrossCurrencySwap(legFix, legFixEUR, "10Y", "2024-03-01", 2.0)`
produces. -/
def swapXCCY : InterestRateSwap :=
  ⟨.CROSS_CURRENCY, legFix, legFixEUR, "10Y", "2024-03-01", some 2⟩

/-- A Bermudan swaption carrying an exercise date after its expiry, exactly
as `createBermudan(PAYER, swapUSD, "2030-01-01", 0.05, {"2031-01-01"})`
builds it. -/
def bermBad : Swaption :=
  ⟨.PAYER, .BERMUDAN, swapUSD, "2030-01-01", 1/20, 0, ["2031-01-01"]⟩

/-- A well-formed Bermudan swaption, as
`createBermudan(PAYER, swapUSD, "2030-01-01", 0.05, {"2029-01-01"})`
builds it. -/
def bermGood : Swaption :=
  ⟨.PAYER, .BERMUDAN, swapUSD, "2030-01-01", 1/20, 0, ["2029-01-01"]⟩

/-- A European payer swaption on `swapUSD`. -/
def euro1 : Swaption := Swaption.createEuropean .PAYER swapUSD "2026-06-30" 0 0

/-- An American receiver swaption on `swapUSD`. -/
def amer1 : Swaption := Swaption.createAmerican .RECEIVER swapUSD "2026-06-30" 0 0

/-- A European receiver swaption with strike 1. -/
def recvSw : Swaption := Swaption.createEuropean .RECEIVER swapUSD "2026-06-30" 1 0

/-- A vanilla swap whose tenor's digit run exceeds `INT_MAX`. -/
def swapBigTenor : InterestRateSwap :=
  ⟨.VANILLA, legFix, legFlt, "9999999999Y", "2024-01-15", none⟩

/-- A European payer swaption on `swapBigTenor`. -/
def swBig : Swaption := Swaption.createEuropean .PAYER swapBigTenor "2026-06-30" 0 0

/-- A concrete stand-in for the C-library real functions, for instantiating
the pricer theorems. -/
def funsId : RealFuns := ⟨fun x => x, fun x => x, fun x => x, fun x => x⟩

/-- A concrete `std::stod` stand-in defined on the two spec example texts. -/
def stodEx : String → Option ℚ :=
  fun s => if s = "500000" then some 500000
           else if s = "-5" then some (-5) else none

/-- A concrete `std::to_string` stand-in. -/
def toStrEx : ℚ → String := fun _ => "1000000.000000"

/-- The validator configuration of the §8 example (`minNotional` raised to
1,000,000, non-strict). -/
def cfgLimits : ValidatorConfig := ⟨false, 1000000, 100000000⟩

/-- A field mapping carrying only `notional = "500000"`. -/
def data500k : String → Option String :=
  fun k => if k = "notional" then some "500000" else none

/-- A field mapping carrying only `notional = "-5"`. -/
def dataNeg : String → Option String :=
  fun k => if k = "notional" then some "-5" else none

/-- The dead third check of `SwapLegBuilder::validate`: a two-alternative
variant always holds one alternative. -/
theorem rate_variant_check_false (r : Rate) :
    (!rateHoldsFixed r && !rateHoldsFloating r) = false := by
  cases r <;> rfl

/-- Claim C1: for every pair of built swap legs, `createVanillaSwap` returns
a swap (rather than failing with a construction error) iff exactly one leg
is fixed and the other floating and both share the currency;
`createBasisSwap` succeeds iff both legs are floating with the same currency
and distinct floating indices; `createCrossCurrencySwap` succeeds iff the
currencies differ and the FX rate is positive. -/
theorem createSwap_success_iff (pay receive : SwapLeg) (tenor eff : String) (fx : ℚ) :
    ((∃ s, InterestRateSwap.createVanillaSwap pay receive tenor eff = .ok s) ↔
      (((pay.isFixed = true ∧ receive.isFloating = true) ∨
        (pay.isFloating = true ∧ receive.isFixed = true)) ∧
       pay.currency = receive.currency)) ∧
    ((∃ s, InterestRateSwap.createBasisSwap pay receive tenor eff = .ok s) ↔
      (∃ i j, pay.rate = .floating i ∧ receive.rate = .floating j ∧
        pay.currency = receive.currency ∧ i ≠ j)) ∧
    ((∃ s, InterestRateSwap.createCrossCurrencySwap pay receive tenor eff fx = .ok s) ↔
      (pay.currency ≠ receive.currency ∧ 0 < fx)) := by
  refine ⟨?_, ?_, ?_⟩
  · have hV : (∃ s, InterestRateSwap.createVanillaSwap pay receive tenor eff = .ok s) ↔
        swap_utils.isValidVanillaSwap pay receive = true := by
      unfold InterestRateSwap.createVanillaSwap
      cases swap_utils.isValidVanillaSwap pay receive <;> simp
    rw [hV]
    simp [swap_utils.isValidVanillaSwap]
  · have hB : (∃ s, InterestRateSwap.createBasisSwap pay receive tenor eff = .ok s) ↔
        swap_utils.isValidBasisSwap pay receive = true := by
      unfold InterestRateSwap.createBasisSwap
      cases swap_utils.isValidBasisSwap pay receive <;> simp
    rw [hB]
    unfold swap_utils.isValidBasisSwap
    cases hp : pay.rate <;> cases hr : receive.rate <;>
      simp [SwapLeg.isFloating, rateHoldsFloating, SwapLeg.floatingIdx, hp, hr]
  · have hX : (∃ s, InterestRateSwap.createCrossCurrencySwap pay receive tenor eff fx = .ok s) ↔
        (swap_utils.isValidCrossCurrencySwap pay receive = true ∧ ¬ fx ≤ 0) := by
      unfold InterestRateSwap.createCrossCurrencySwap
      cases swap_utils.isValidCrossCurrencySwap pay receive <;>
        by_cases hf : fx ≤ 0 <;> simp [hf]
    rw [hX]
    simp [swap_utils.isValidCrossCurrencySwap, bne_iff_ne, not_le]

/-- Claim C2, counterexample: a builder on which neither `withFixedRate` nor
`withFloatingIndex` was ever called still builds successfully (as a fixed leg
at the default rate 0.0), because the `rate_` variant is default-initialized
to the `double` alternative and the neither-variant check can never fire.
The claim says this `build()` call fails. -/
theorem build_without_rate_setter_succeeds :
    ((SwapLegBuilder.new.withCurrency "USD").withNotional 1000000).bind
      SwapLegBuilder.build =
    Except.ok ⟨.FIXED, "USD", 1000000, .fixed 0, .ACT_360, .SEMI_ANNUAL, none⟩ := rfl

/-- Claim C2, amended: `build()` fails with a construction error exactly when
the configured currency is empty or the configured notional is non-positive;
the neither-rate-variant check is unreachable (the rate field defaults to
the fixed alternative 0.0), so a builder with no rate setter called still
builds once currency and notional are valid.  `withNotional(x)` with
`x ≤ 0` fails immediately at the setter call. -/
theorem build_success_iff (b : SwapLegBuilder) (x : ℚ) :
    ((∃ leg, b.build = .ok leg) ↔ (b.currency ≠ "" ∧ 0 < b.notional)) ∧
    ((∃ b2, b.withNotional x = .ok b2) ↔ 0 < x) := by
  constructor
  · unfold SwapLegBuilder.build SwapLegBuilder.buildValidate
    rw [rate_variant_check_false b.rate]
    by_cases h1 : b.currency = ""
    · simp [h1]
    · by_cases h2 : b.notional ≤ 0
      · simp [h1, h2]
      · simp [h1, h2, not_le.mp h2]
  · unfold SwapLegBuilder.withNotional
    by_cases h : x ≤ 0
    · simp [h, not_le]
    · simp [h, not_le.mp h]

/-- Inserting into a list never yields the empty list. -/
theorem insertSorted_ne_nil (d : String) (xs : List String) :
    insertSorted d xs ≠ [] := by
  cases xs with
  | nil => simp [insertSorted]
  | cons x xs =>
    unfold insertSorted
    split <;> simp

/-- Sorting a non-empty list yields a non-empty list. -/
theorem stringSort_cons_ne_nil (x : String) (xs : List String) :
    stringSort (x :: xs) ≠ [] := by
  unfold stringSort
  exact insertSorted_ne_nil x (stringSort xs)

/-- What a successful `createBermudan` call guarantees about its result. -/
theorem createBermudan_ok_fields {t : SwaptionType} {u : InterestRateSwap}
    {e : String} {k : ℚ} {ds : List String} {p : ℚ} {s : Swaption}
    (h : Swaption.createBermudan t u e k ds p = .ok s) :
    s.style = .BERMUDAN ∧ s.exerciseDates = ds ∧ ds ≠ [] := by
  unfold Swaption.createBermudan at h
  by_cases hds : ds = []
  · simp [hds] at h
  · simp [hds] at h
    rw [← h]
    exact ⟨rfl, rfl, hds⟩

/-- What a successful `addExerciseDate` call guarantees: the receiver was
Bermudan, the style is unchanged, and the date vector is either untouched
(duplicate) or the sorted extension by the new date. -/
theorem addExerciseDate_ok {s : Swaption} {d : String} {s2 : Swaption}
    (h : s.addExerciseDate d = .ok s2) :
    s.style = .BERMUDAN ∧ s2.style = s.style ∧
    (s2.exerciseDates = s.exerciseDates ∨
      s2.exerciseDates = stringSort (s.exerciseDates ++ [d])) := by
  unfold Swaption.addExerciseDate at h
  by_cases hb : s.style = .BERMUDAN
  · simp [hb] at h
    by_cases hc : d ∈ s.exerciseDates
    · rw [if_pos hc] at h
      injection h with h
      subst h
      exact ⟨hb, rfl, Or.inl rfl⟩
    · rw [if_neg hc] at h
      injection h with h
      subst h
      exact ⟨hb, hb.symm, Or.inr rfl⟩
  · simp [hb] at h

/-- Claim C3, counterexample: `createBermudan` accepts an exercise date that
is lexicographically after the expiry date, so the claimed reachable-state
invariant "every date is at most the expiry" fails already at construction
(only `validate()` reports such dates, it does not prevent them). -/
theorem bermudan_late_exercise_date_cex :
    Swaption.createBermudan .PAYER swapUSD "2030-01-01" (1/20) ["2031-01-01"] 0 =
      .ok bermBad ∧
    Reachable bermBad ∧ bermBad.style = .BERMUDAN ∧
    "2031-01-01" ∈ bermBad.exerciseDates ∧
    strLe "2031-01-01" bermBad.expiryDate = false := by
  refine ⟨rfl,
    Reachable.bermudan .PAYER swapUSD "2030-01-01" (1/20) ["2031-01-01"] 0
      bermBad rfl, rfl, ?_, rfl⟩
  simp [bermBad]

/-- Claim C3, amended: every reachable Bermudan swaption (built by
`createBermudan` and mutated by any sequence of `addExerciseDate` calls) has
a non-empty `exerciseDates` set; the bound "each date ≤ expiry" is not a
reachable-state invariant. -/
theorem reachable_bermudan_dates_nonempty :
    ∀ s : Swaption, Reachable s → s.style = .BERMUDAN →
      s.exerciseDates ≠ [] := by
  intro s h
  induction h with
  | european t u e k p =>
    intro hs
    exact absurd hs (by simp [Swaption.createEuropean, Swaption.init])
  | american t u e k p =>
    intro hs
    exact absurd hs (by simp [Swaption.createAmerican, Swaption.init])
  | bermudan t u e k ds p s hok =>
    intro _
    obtain ⟨_, hds, hne⟩ := createBermudan_ok_fields hok
    rw [hds]
    exact hne
  | add s d s2 hs hok ih =>
    intro _
    obtain ⟨hsb, _, hdates⟩ := addExerciseDate_ok hok
    cases hdates with
    | inl hd => rw [hd]; exact ih hsb
    | inr hd =>
      rw [hd]
      cases s.exerciseDates with
      | nil => simp [stringSort, insertSorted]
      | cons x xs => exact stringSort_cons_ne_nil x (xs ++ [d])

/-- Claim C3 witness: a concrete reachable Bermudan swaption with a
non-empty date set. -/
theorem reachable_bermudan_dates_nonempty_witness :
    bermGood.exerciseDates ≠ [] :=
  reachable_bermudan_dates_nonempty bermGood
    (Reachable.bermudan .PAYER swapUSD "2030-01-01" (1/20) ["2029-01-01"] 0
      bermGood rfl) rfl

/-- Claim C4: every reachable European swaption has `exerciseDates` equal to
the singleton of its expiry date, and `addExerciseDate` on a non-Bermudan
swaption fails with an invalid-operation error (leaving the swaption
unchanged, since a throwing call returns no new state). -/
theorem european_exercise_dates_invariant :
    (∀ s : Swaption, Reachable s → s.style = .EUROPEAN →
      s.exerciseDates = [s.expiryDate]) ∧
    (∀ (s : Swaption) (d : String), s.style ≠ .BERMUDAN →
      ∃ msg, s.addExerciseDate d = .error msg) := by
  constructor
  · intro s h
    induction h with
    | european t u e k p => intro _; rfl
    | american t u e k p =>
      intro hs
      exact absurd hs (by simp [Swaption.createAmerican, Swaption.init])
    | bermudan t u e k ds p s hok =>
      intro hs
      obtain ⟨hb, _, _⟩ := createBermudan_ok_fields hok
      rw [hb] at hs
      cases hs
    | add s d s2 hs hok ih =>
      intro h2
      obtain ⟨hsb, hstyle, _⟩ := addExerciseDate_ok hok
      rw [hstyle, hsb] at h2
      cases h2
  · intro s d hs
    refine ⟨"Can only add exercise dates to Bermudan swaptions", ?_⟩
    unfold Swaption.addExerciseDate
    simp [hs]

/-- Claim C4 witness: the concrete European swaption `euro1`. -/
theorem european_exercise_dates_invariant_witness :
    euro1.exerciseDates = [euro1.expiryDate] ∧
    ∃ msg, euro1.addExerciseDate "2025-01-01" = .error msg :=
  ⟨european_exercise_dates_invariant.1 euro1
      (Reachable.european .PAYER swapUSD "2026-06-30" 0 0) rfl,
   european_exercise_dates_invariant.2 euro1 "2025-01-01" (by decide)⟩

/-- Claim C5: `canExerciseOn(d)` is equality with the expiry date for
European style, lexicographic `d ≤ expiry` for American style, and
membership in `exerciseDates` for Bermudan style. -/
theorem canExerciseOn_spec (s : Swaption) (d : String) :
    (s.style = .EUROPEAN → (s.canExerciseOn d = true ↔ d = s.expiryDate)) ∧
    (s.style = .AMERICAN → (s.canExerciseOn d = true ↔ strLe d s.expiryDate = true)) ∧
    (s.style = .BERMUDAN → (s.canExerciseOn d = true ↔ d ∈ s.exerciseDates)) := by
  refine ⟨?_, ?_, ?_⟩ <;> intro hs <;>
    simp [Swaption.canExerciseOn, hs, List.elem_iff]

/-- Claim C5 witness: one concrete swaption per exercise style. -/
theorem canExerciseOn_spec_witness :
    (euro1.canExerciseOn "2026-06-30" = true ↔ "2026-06-30" = euro1.expiryDate) ∧
    (amer1.canExerciseOn "2025-01-01" = true ↔
      strLe "2025-01-01" amer1.expiryDate = true) ∧
    (bermGood.canExerciseOn "2029-01-01" = true ↔
      "2029-01-01" ∈ bermGood.exerciseDates) :=
  ⟨(canExerciseOn_spec euro1 "2026-06-30").1 rfl,
   (canExerciseOn_spec amer1 "2025-01-01").2.1 rfl,
   (canExerciseOn_spec bermGood "2029-01-01").2.2 rfl⟩

/-- Claim C6: `notional()` returns the pay leg's notional for non
cross-currency swaps, and the mean of the pay notional and the fx-converted
receive notional for a cross-currency swap with fx rate `f`. -/
theorem notional_spec (s : InterestRateSwap) (f : ℚ) :
    (s.type ≠ .CROSS_CURRENCY → s.notional = s.payLeg.notional) ∧
    (s.type = .CROSS_CURRENCY → s.fxRate = some f →
      s.notional = (s.payLeg.notional + s.receiveLeg.notional * f) / 2) := by
  constructor
  · intro h
    unfold InterestRateSwap.notional
    cases ht : s.type <;> cases hf : s.fxRate <;> simp_all
  · intro ht hf
    unfold InterestRateSwap.notional
    rw [ht, hf]

/-- Claim C6 witness: the concrete vanilla swap `swapUSD` and the concrete
cross-currency swap `swapXCCY` (fx rate 2). -/
theorem notional_spec_witness :
    swapUSD.notional = swapUSD.payLeg.notional ∧
    swapXCCY.notional = (swapXCCY.payLeg.notional + swapXCCY.receiveLeg.notional * 2) / 2 :=
  ⟨(notional_spec swapUSD 0).1 (by decide),
   (notional_spec swapXCCY 2).2 rfl rfl⟩

/-- Claim C7: `intrinsicValue(r)` is `max 0 (r − strike)` for a payer and
`max 0 (strike − r)` for a receiver; it vanishes at the strike and is
strictly positive on the favorable side. -/
theorem intrinsicValue_spec (s : Swaption) (r : ℚ) :
    (s.type = .PAYER → s.intrinsicValue r = max 0 (r - s.strikeRate)) ∧
    (s.type = .RECEIVER → s.intrinsicValue r = max 0 (s.strikeRate - r)) ∧
    (r = s.strikeRate → s.intrinsicValue r = 0) ∧
    (s.type = .PAYER → s.strikeRate < r → 0 < s.intrinsicValue r) ∧
    (s.type = .RECEIVER → r < s.strikeRate → 0 < s.intrinsicValue r) := by
  have hp : s.type = .PAYER → s.intrinsicValue r = max 0 (r - s.strikeRate) := by
    intro h
    unfold Swaption.intrinsicValue
    simp [h]
  have hr : s.type = .RECEIVER → s.intrinsicValue r = max 0 (s.strikeRate - r) := by
    intro h
    unfold Swaption.intrinsicValue
    simp [h, neg_sub]
  refine ⟨hp, hr, ?_, ?_, ?_⟩
  · intro he
    cases ht : s.type
    · rw [hp ht, he]
      simp
    · rw [hr ht, he]
      simp
  · intro ht hlt
    rw [hp ht]
    exact lt_max_iff.mpr (Or.inr (sub_pos.mpr hlt))
  · intro ht hlt
    rw [hr ht]
    exact lt_max_iff.mpr (Or.inr (sub_pos.mpr hlt))

/-- Claim C7 witness: concrete payer (`euro1`, strike 0) and receiver
(`recvSw`, strike 1) swaptions evaluated on both sides of the strike. -/
theorem intrinsicValue_spec_witness :
    euro1.intrinsicValue 1 = max 0 (1 - euro1.strikeRate) ∧
    0 < euro1.intrinsicValue 1 ∧
    recvSw.intrinsicValue 0 = max 0 (recvSw.strikeRate - 0) ∧
    0 < recvSw.intrinsicValue 0 ∧
    euro1.intrinsicValue 0 = 0 :=
  ⟨(intrinsicValue_spec euro1 1).1 rfl,
   (intrinsicValue_spec euro1 1).2.2.2.1 rfl (by decide),
   (intrinsicValue_spec recvSw 0).2.1 rfl,
   (intrinsicValue_spec recvSw 0).2.2.2.2 rfl (by decide),
   (intrinsicValue_spec euro1 0).2.2.1 rfl⟩

/-- Claim C8: the built-in notional rule reads `notional`, falling back to
`quantity`; when both are absent it errors exactly in strict mode; an
unparseable value is an Error; a non-positive value is an Error; a positive
value outside `[minNotional, maxNotional]` is exactly one Warning on field
`notional`; otherwise no result is produced. -/
theorem validateNotional_spec (stod : String → Option ℚ) (toStr : ℚ → String)
    (cfg : ValidatorConfig) (data : String → Option String) :
    (SwapValidator.notionalText data = none → cfg.strictMode = true →
      ∃ r, SwapValidator.validateNotional stod toStr cfg data = some r ∧
        r.severity = .ERROR ∧ r.field = "notional") ∧
    (SwapValidator.notionalText data = none → cfg.strictMode = false →
      SwapValidator.validateNotional stod toStr cfg data = none) ∧
    (∀ s, SwapValidator.notionalText data = some s → stod s = none →
      ∃ r, SwapValidator.validateNotional stod toStr cfg data = some r ∧
        r.severity = .ERROR ∧ r.field = "notional") ∧
    (∀ s v, SwapValidator.notionalText data = some s → stod s = some v →
      v ≤ 0 →
      ∃ r, SwapValidator.validateNotional stod toStr cfg data = some r ∧
        r.severity = .ERROR ∧ r.field = "notional") ∧
    (∀ s v, SwapValidator.notionalText data = some s → stod s = some v →
      0 < v → v < cfg.minNotional →
      ∃ r, SwapValidator.validateNotional stod toStr cfg data = some r ∧
        r.severity = .WARNING ∧ r.field = "notional") ∧
    (∀ s v, SwapValidator.notionalText data = some s → stod s = some v →
      0 < v → cfg.minNotional ≤ v → cfg.maxNotional < v →
      ∃ r, SwapValidator.validateNotional stod toStr cfg data = some r ∧
        r.severity = .WARNING ∧ r.field = "notional") ∧
    (∀ s v, SwapValidator.notionalText data = some s → stod s = some v →
      0 < v → cfg.minNotional ≤ v → v ≤ cfg.maxNotional →
      SwapValidator.validateNotional stod toStr cfg data = none) := by
  refine ⟨?_, ?_, ?_, ?_, ?_, ?_, ?_⟩
  · intro h1 h2
    exact ⟨⟨.ERROR, "notional", "Notional amount is required", none⟩,
      by simp [SwapValidator.validateNotional, h1, h2], rfl, rfl⟩
  · intro h1 h2
    simp [SwapValidator.validateNotional, h1, h2]
  · intro s h1 h2
    exact ⟨⟨.ERROR, "notional", "Invalid notional value: " ++ s,
        some "Must be a valid number"⟩,
      by simp [SwapValidator.validateNotional, h1, h2], rfl, rfl⟩
  · intro s v h1 h2 h3
    exact ⟨⟨.ERROR, "notional", "Notional must be positive", none⟩,
      by simp [SwapValidator.validateNotional, h1, h2, h3], rfl, rfl⟩
  · intro s v h1 h2 h3 h4
    exact ⟨⟨.WARNING, "notional", "Notional below minimum: " ++ s,
        some ("Minimum is " ++ toStr cfg.minNotional)⟩,
      by simp [SwapValidator.validateNotional, h1, h2, not_le.mpr h3, h4],
      rfl, rfl⟩
  · intro s v h1 h2 h3 h4 h5
    exact ⟨⟨.WARNING, "notional", "Notional exceeds maximum: " ++ s,
        some ("Maximum is " ++ toStr cfg.maxNotional)⟩,
      by simp [SwapValidator.validateNotional, h1, h2, not_le.mpr h3,
        not_lt.mpr h4, h5], rfl, rfl⟩
  · intro s v h1 h2 h3 h4 h5
    simp [SwapValidator.validateNotional, h1, h2, not_le.mpr h3,
      not_lt.mpr h4, not_lt.mpr h5]

/-- Claim C8 witness: the §8 examples, `notional = "500000"` against
`minNotional = 1,000,000` (one Warning) and `notional = "-5"` (one Error). -/
theorem validateNotional_spec_witness :
    (∃ r, SwapValidator.validateNotional stodEx toStrEx cfgLimits data500k = some r ∧
      r.severity = .WARNING ∧ r.field = "notional") ∧
    (∃ r, SwapValidator.validateNotional stodEx toStrEx cfgLimits dataNeg = some r ∧
      r.severity = .ERROR ∧ r.field = "notional") :=
  ⟨(validateNotional_spec stodEx toStrEx cfgLimits data500k).2.2.2.2.1
      "500000" 500000 rfl rfl (by decide) (by decide),
   (validateNotional_spec stodEx toStrEx cfgLimits dataNeg).2.2.2.1
      "-5" (-5) rfl rfl (by decide)⟩

/-- Claim C9, counterexample: `blackPrice` does not always return a value.
A tenor whose digit run exceeds `INT_MAX` makes `std::stoi` inside
`tenorToMonths` throw `std::out_of_range`, which propagates out of
`calculateAnnuity` and `blackPrice` uncaught. -/
theorem blackPrice_stoi_overflow_cex :
    SwaptionPricer.blackPrice funsId swBig 1 1 1 = .error "stoi out of range" := rfl

/-- Claim C9, amended: whenever `tenorToMonths` returns (its digit run fits
in `int`), `blackPrice` returns a value.  With `m` the `int` month count the
program computes (including the 32-bit wrap of `num * 12` for large `'Y'`
tenors), the annuity is 1.0 when `m = 0` (empty or unparseable tenor, or a
tenor wrapping to 0), and otherwise equals the sum over
`i = 1 .. floor(tenorYears × paymentsPerYear)` of
`exp(−forwardRate · i/paymentsPerYear) · (1/paymentsPerYear)`, with
`paymentsPerYear` derived from the fixed leg's payment frequency (for a
negative wrapped `m` the payment count truncates to 0 and the sum is
empty, as the program's loop is). -/
theorem blackPrice_total (E : RealFuns) (s : Swaption) (f v T : ℚ) (m : ℤ)
    (h : swap_utils.tenorToMonths s.underlying.tenor = .ok m) :
    ∃ a : ℚ,
      SwaptionPricer.calculateAnnuity E s.underlying f = .ok a ∧
      SwaptionPricer.blackPrice E s f v T =
        .ok (s.underlying.notional * a * SwaptionPricer.blackTerm E s f v T) ∧
      (m = 0 → a = 1) ∧
      (m ≠ 0 → a = specAnnuitySum E s.underlying f m) := by
  have hppy : paymentsPerYear (pricerFixedLeg s.underlying).frequency ≠ 0 := by
    cases hfr : (pricerFixedLeg s.underlying).frequency <;> decide
  have hred : SwaptionPricer.calculateAnnuity E s.underlying f =
      (if m = 0 then Except.ok 1
       else if paymentsPerYear (pricerFixedLeg s.underlying).frequency = 0 then
         Except.ok 1
       else Except.ok (specAnnuitySum E s.underlying f m)) := by
    unfold SwaptionPricer.calculateAnnuity
    rw [h]
    rfl
  by_cases hm : m = 0
  · rw [if_pos hm] at hred
    refine ⟨1, hred, ?_, fun _ => rfl, fun h2 => absurd hm h2⟩
    unfold SwaptionPricer.blackPrice
    rw [hred]
  · rw [if_neg hm, if_neg hppy] at hred
    refine ⟨specAnnuitySum E s.underlying f m, hred, ?_,
      fun h0 => absurd h0 hm, fun _ => rfl⟩
    unfold SwaptionPricer.blackPrice
    rw [hred]

/-- Claim C9 witness: the concrete swaption `euro1` (tenor "5Y", 60 months). -/
theorem blackPrice_total_witness :
    swap_utils.tenorToMonths euro1.underlying.tenor = .ok 60 ∧
    ∃ a : ℚ,
      SwaptionPricer.calculateAnnuity funsId euro1.underlying 1 = .ok a ∧
      SwaptionPricer.blackPrice funsId euro1 1 1 1 =
        .ok (euro1.underlying.notional * a *
              SwaptionPricer.blackTerm funsId euro1 1 1 1) ∧
      ((60 : ℤ) = 0 → a = 1) ∧
      ((60 : ℤ) ≠ 0 → a = specAnnuitySum funsId euro1.underlying 1 60) :=
  ⟨rfl, blackPrice_total funsId euro1 1 1 1 60 rfl⟩
